import Mathlib

/-!
Verification development for the darklakefi/gateway-wallet emulator.

The client (src/src/index.ts) is a linear workflow: build a swap request,
call the gateway for an unsigned transaction, decode the base64 payload
through a chain of fallback parsers, sign, submit, poll the trade status,
and list the user's trades.  The definitions below embed that workflow
shallowly: the external collaborators (the gRPC gateway and the Solana
SDK's parsers, signer and serializer) are supplied as oracle fields of an
`Env` record, while every branch, ordering and error decision of the
client's own code is reproduced from the source.  The workflow returns its
outcome together with the ordered trace of outward-visible events
(gateway calls, sleeps, the success/failure log line), so that claims
about which calls happen, and in which order, are statements about the
returned trace.
-/

namespace GatewayWallet

/-! ## Data model (src/src/types.ts) -/

/-- `Network` enum; discriminants MAINNET = 0, TESTNET = 1, DEVNET = 2. -/
inductive Network
  | MAINNET
  | TESTNET
  | DEVNET
deriving DecidableEq, Repr

/-- `TradeStatus` enum from src/src/types.ts. -/
inductive TradeStatus
  | UNSIGNED
  | SIGNED
  | CONFIRMED
  | SETTLED
  | SLASHED
  | CANCELLED
deriving DecidableEq, Repr

structure SwapRequest where
  user_address : String
  token_mint_x : String
  token_mint_y : String
  amount_in : Nat
  min_out : Nat
  is_swap_x_to_y : Bool
  network : Network
  tracking_id : String
  ref_code : String
  label : String
deriving DecidableEq, Repr

/-- `SwapResponse`.  In the source `unsigned_transaction` is a base64
string that is immediately decoded with `Buffer.from(_, 'base64')`
(an external primitive); we carry the decoded byte buffer directly, so
`unsigned_transaction.length` is the "transaction buffer length" the
client logs. -/
structure SwapResponse where
  unsigned_transaction : List Nat
  trade_id : String
deriving DecidableEq, Repr

structure SignedTransactionRequest where
  signed_transaction : String
  trade_id : String
  tracking_id : String
deriving DecidableEq, Repr

structure SignedTransactionResponse where
  trade_id : String
  success : Bool
  error_logs : List String
deriving DecidableEq, Repr

structure CheckTradeStatusRequest where
  tracking_id : String
  trade_id : String
deriving DecidableEq, Repr

structure CheckTradeStatusResponse where
  trade_id : String
  status : TradeStatus
deriving DecidableEq, Repr

structure GetTradesListByUserRequest where
  user_address : String
  page_size : Nat
  page_number : Nat
deriving DecidableEq, Repr

structure TokenMetadata where
  name : String
  symbol : String
  decimals : Nat
  logo_uri : String
  address : String
deriving DecidableEq, Repr

structure Trade where
  trade_id : String
  order_id : String
  user_address : String
  amount_in : Nat
  minimal_amount_out : Nat
  status : TradeStatus
  signature : String
  is_swap_x_to_y : Bool
deriving DecidableEq, Repr

structure GetTradesListByUserResponse where
  trades : List Trade
  total_pages : Nat
  current_page : Nat
deriving DecidableEq, Repr

structure WalletEmulatorConfig where
  privateKeyBytes : String
  gatewayHost : String
  gatewayPort : Nat
  tokenX : String
  tokenY : String
  inputAmount : Nat
  minOut : Nat
  network : Network
  trackingId : String
  refCode : String
  label : String
deriving DecidableEq, Repr

/-! ## Solana-side structures used by the client

The client only ever touches a decoded transaction's
`message.header.numRequiredSignatures`, its `message.staticAccountKeys`,
and its `signatures` array, so those are what the embedding carries.
Base58 rendering of a public key is an external primitive; it is modelled
as the canonical decimal rendering of the key bytes (injective, which is
all the client relies on). -/

structure PublicKey where
  keyBytes : List Nat
deriving DecidableEq, Repr

def PublicKey.toBase58 (k : PublicKey) : String :=
  toString k.keyBytes

structure Keypair where
  publicKey : PublicKey
deriving DecidableEq, Repr

structure MessageHeader where
  numRequiredSignatures : Nat
  numReadonlySignedAccounts : Nat
  numReadonlyUnsignedAccounts : Nat
deriving DecidableEq, Repr

structure VersionedMessage where
  header : MessageHeader
  staticAccountKeys : List PublicKey
deriving DecidableEq, Repr

/-- A versioned transaction: a message paired with a signature slot per
required signer (`none` is the `null` placeholder the client writes). -/
structure VersionedTransaction where
  message : VersionedMessage
  signatures : List (Option (List Nat))
deriving DecidableEq, Repr

/-- A legacy (non-versioned) transaction.  The client never inspects its
fields — it only signs and serializes it through the SDK — so it is an
opaque carrier. -/
structure LegacyTransaction where
  txBytes : List Nat
deriving DecidableEq, Repr

/-! ## Errors and events -/

/-- A call-level error from the gRPC channel. -/
structure GrpcError where
  message : String
deriving DecidableEq, Repr

/-- The failures `executeWalletSwap` can propagate (all are thrown
`Error`s in the source; the constructor records which throw site). -/
inductive WError
  | gateway (message : String)
  | decodeFailed (message : String)
  | notRequiredSigner (message : String)
deriving DecidableEq, Repr

/-- The outward-visible events of one run, in order: the four gateway
calls, the poller's sleeps, and the success/failure log line printed
after submission (the only console line whose content depends on a
response). -/
inductive Event
  | swapCall (req : SwapRequest)
  | submitCall (idx : Nat) (req : SignedTransactionRequest)
  | statusCall (i : Nat)
  | sleep (ms : Nat)
  | log (line : String)
  | tradesCall (req : GetTradesListByUserRequest)
deriving DecidableEq, Repr

def countStatusCalls : List Event → Nat
  | [] => 0
  | .statusCall _ :: l => countStatusCalls l + 1
  | _ :: l => countStatusCalls l

def countSleeps : List Event → Nat
  | [] => 0
  | .sleep _ :: l => countSleeps l + 1
  | _ :: l => countSleeps l

def countSubmitCalls : List Event → Nat
  | [] => 0
  | .submitCall _ _ :: l => countSubmitCalls l + 1
  | _ :: l => countSubmitCalls l

def countTradesCalls : List Event → Nat
  | [] => 0
  | .tradesCall _ :: l => countTradesCalls l + 1
  | _ :: l => countTradesCalls l

/-! ## Status poller (src/src/index.ts lines 358-393) -/

/-- Terminal statuses: line 369 of the source. -/
def isTerminal (s : TradeStatus) : Bool :=
  match s with
  | .SETTLED => true
  | .SLASHED => true
  | .CANCELLED => true
  | _ => false

/-- A status-check outcome that does not end polling: a call-level error
or a response whose status is non-terminal. -/
def nonFinalB (r : Except GrpcError CheckTradeStatusResponse) : Bool :=
  match r with
  | .ok resp => !(isTerminal resp.status)
  | .error _ => true

/-- The poller's loop body, structurally recursive on the number of
remaining attempts.  The source iterates `i` from `0` to
`maxRetries - 1`; here `i = maxRetries - (remaining + 1)`, so
`remaining = 0` exactly when `i = maxRetries - 1` (the final attempt,
where a call-level error returns `undefined` inside the catch, line 379)
and the inter-attempt sleep (line 386, guarded by `i < maxRetries - 1`)
fires exactly when `0 < remaining`. -/
def pollAux (oracle : Nat → Except GrpcError CheckTradeStatusResponse)
    (maxRetries delayMs : Nat) : Nat → Option CheckTradeStatusResponse × List Event
  | 0 => (none, [])
  | remaining + 1 =>
    let i := maxRetries - (remaining + 1)
    match oracle i with
    | .ok resp =>
      if isTerminal resp.status then
        (some resp, [Event.statusCall i])
      else
        let rest := pollAux oracle maxRetries delayMs remaining
        (rest.1, Event.statusCall i ::
          (if 0 < remaining then Event.sleep delayMs :: rest.2 else rest.2))
    | .error _ =>
      if remaining = 0 then
        (none, [Event.statusCall i])
      else
        let rest := pollAux oracle maxRetries delayMs remaining
        (rest.1, Event.statusCall i ::
          (if 0 < remaining then Event.sleep delayMs :: rest.2 else rest.2))

/-- `pollTransactionStatus`: repeatedly check the trade status, at most
`maxRetries` times, sleeping `delayMs` between attempts, returning the
first terminal response or `none` on exhaustion.  The `oracle` supplies
the gateway's answer to the `n`-th status call of this run. -/
def pollTransactionStatus (oracle : Nat → Except GrpcError CheckTradeStatusResponse)
    (maxRetries delayMs : Nat) : Option CheckTradeStatusResponse × List Event :=
  pollAux oracle maxRetries delayMs maxRetries

/-! ## The run environment

One `Env` value fixes everything external to the client's own code for a
single run: the configuration, the keypair (derived from the configured
key bytes by the SDK), the gateway's answer to each call, and the SDK's
deterministic parsers/signer/serializer evaluated on this run's payload.
The four `try…` fields are the results of the four deserialization
attempts of the fallback chain on the (fixed) decoded payload buffer;
the second attempt, `VersionedMessage.deserialize(unsignedTransactionBuffer)`,
is issued again verbatim at the manual-parsing stage (line 232), so both
sites read the same field. -/

structure Env where
  config : WalletEmulatorConfig
  keypair : Keypair
  /-- Outcome of `grpcClient.swap` (CreateUnsignedTransaction). -/
  swapResult : Except GrpcError SwapResponse
  /-- `VersionedTransaction.deserialize(unsignedTransactionBuffer)` (line 148). -/
  tryVersionedTx : Option VersionedTransaction
  /-- `VersionedMessage.deserialize(unsignedTransactionBuffer)` (lines 156 and 232). -/
  tryVersionedMsg : Option VersionedMessage
  /-- `Transaction.from(unsignedTransactionBuffer)` (line 170). -/
  tryLegacyTx : Option LegacyTransaction
  /-- `VersionedTransaction.deserialize` of the buffer with 64 zero bytes
  prepended (lines 250-266, the "empty signatures approach"). -/
  tryPaddedVersionedTx : Option VersionedTransaction
  /-- `versionedTransaction.sign([keypair])` (line 303). -/
  signV : VersionedTransaction → VersionedTransaction
  /-- `Buffer.from(vtx.serialize()).toString('base64')` (line 307). -/
  serializeV : VersionedTransaction → String
  /-- `legacyTransaction.sign(keypair)` (line 174). -/
  signL : LegacyTransaction → LegacyTransaction
  /-- `legacyTransaction.serialize().toString('base64')` (line 177). -/
  serializeL : LegacyTransaction → String
  /-- Outcome of the `n`-th `submitSignedTransaction` call of the run. -/
  submitResult : Nat → Except GrpcError SignedTransactionResponse
  /-- Outcome of the `n`-th `checkTradeStatus` call of the run. -/
  statusResult : Nat → Except GrpcError CheckTradeStatusResponse
  /-- Outcome of `getTradesListByUser`. -/
  tradesResult : Except GrpcError GetTradesListByUserResponse

/-! ## Workflow (src/src/index.ts lines 96-356) -/

/-- The swap request built at lines 113-124.  Line 120 hard-codes
`Network.DEVNET` and leaves `config.network` in a comment. -/
def mkSwapRequest (config : WalletEmulatorConfig) (walletPublicKey : String) : SwapRequest :=
  { user_address := walletPublicKey
    token_mint_x := config.tokenX
    token_mint_y := config.tokenY
    amount_in := config.inputAmount
    min_out := config.minOut
    is_swap_x_to_y := true
    network := Network.DEVNET
    tracking_id := config.trackingId
    ref_code := config.refCode
    label := config.label }

/-- Message of the error thrown when every deserialization attempt has
failed (line 281). -/
def decodeExhaustedMessage : String :=
  "Unable to deserialize transaction - gateway may be sending unsupported format"

/-- Message of the error thrown when the wallet is not among the required
signers of a message that requires signatures (line 298). -/
def notRequiredSignerMessage : String :=
  "Cannot sign transaction - wallet is not a required signer"

/-- Log line printed when submission reports `success = true` (line 327). -/
def swapCompletedLog : String := "Swap completed successfully!"

/-- Log line printed when submission reports `success = false` (line 329). -/
def swapFailedLog : String := "Swap failed:"

/-- Lines 288-290: the required signers are the first
`numRequiredSignatures` static account keys, and the wallet must be one
of them. -/
def isWalletRequiredSigner (env : Env) (t : VersionedTransaction) : Bool :=
  (t.message.staticAccountKeys.take t.message.header.numRequiredSignatures).any
    fun key => decide (key = env.keypair.publicKey)

/-- The unified post-decode path (lines 287-350): signer check, sign (or
skip), serialize, submit, log the success flag, poll five times with a
one-second delay, then list the user's trades.  `submitIdx` is the index
of the run's next `submitSignedTransaction` call (1 when the legacy
branch already consumed a rejected submission).  Returns the outcome and
the events emitted from this point on. -/
def afterDecode (env : Env) (swapResponse : SwapResponse)
    (versionedTransaction : VersionedTransaction) (submitIdx : Nat) :
    Except WError Unit × List Event :=
  let isSigner := isWalletRequiredSigner env versionedTransaction
  if isSigner = false ∧ versionedTransaction.message.header.numRequiredSignatures ≠ 0 then
    (.error (.notRequiredSigner notRequiredSignerMessage), [])
  else
    let signedTx := if isSigner then env.signV versionedTransaction else versionedTransaction
    let signedTransactionBase64 := env.serializeV signedTx
    let signedTxRequest : SignedTransactionRequest :=
      { signed_transaction := signedTransactionBase64
        trade_id := swapResponse.trade_id
        tracking_id := env.config.trackingId }
    match env.submitResult submitIdx with
    | .error e => (.error (.gateway e.message), [Event.submitCall submitIdx signedTxRequest])
    | .ok signedTxResponse =>
      let logEv : Event :=
        if signedTxResponse.success then .log swapCompletedLog else .log swapFailedLog
      let poll := pollTransactionStatus env.statusResult 5 1000
      let getTradesRequest : GetTradesListByUserRequest :=
        { user_address := env.keypair.publicKey.toBase58
          page_size := 10
          page_number := 1 }
      match env.tradesResult with
      | .error e =>
        (.error (.gateway e.message),
          Event.submitCall submitIdx signedTxRequest :: logEv ::
            (poll.2 ++ [Event.tradesCall getTradesRequest]))
      | .ok _ =>
        (.ok (),
          Event.submitCall submitIdx signedTxRequest :: logEv ::
            (poll.2 ++ [Event.tradesCall getTradesRequest]))

/-- The manual-parsing stage (lines 213-282), reached when the first
three attempts failed or the legacy branch threw: re-parse the buffer as
a `VersionedMessage` (the same deterministic parser invoked at line 156,
hence the same `Env` field), else try deserializing with 64 zero bytes
prepended; if both fail, throw the decode-exhausted error. -/
def stageFour (env : Env) (swapResponse : SwapResponse) (submitIdx : Nat) :
    Except WError Unit × List Event :=
  match env.tryVersionedMsg with
  | some message =>
    afterDecode env swapResponse
      ⟨message, List.replicate message.header.numRequiredSignatures none⟩ submitIdx
  | none =>
    match env.tryPaddedVersionedTx with
    | some vtx => afterDecode env swapResponse vtx submitIdx
    | none => (.error (.decodeFailed decodeExhaustedMessage), [])

/-- `executeWalletSwap` (lines 96-356).  The decode fallback chain:
first `VersionedTransaction.deserialize`; then `VersionedMessage.deserialize`
with a `null`-filled signature list of length `numRequiredSignatures`;
then the legacy branch, which signs, serializes, submits, logs, polls and
returns right there — note that the catch guarding `Transaction.from`
(line 209) also catches a rejected submission inside that branch, in
which case the chain falls through to the manual-parsing stage; finally
the manual-parsing stage. -/
def executeWalletSwap (env : Env) : Except WError Unit × List Event :=
  let walletPublicKey := env.keypair.publicKey.toBase58
  let swapEv := Event.swapCall (mkSwapRequest env.config walletPublicKey)
  match env.swapResult with
  | .error e => (.error (.gateway e.message), [swapEv])
  | .ok swapResponse =>
    match env.tryVersionedTx with
    | some versionedTransaction =>
      let d := afterDecode env swapResponse versionedTransaction 0
      (d.1, swapEv :: d.2)
    | none =>
      match env.tryVersionedMsg with
      | some versionedMessage =>
        let signatures : List (Option (List Nat)) :=
          List.replicate versionedMessage.header.numRequiredSignatures none
        let d := afterDecode env swapResponse ⟨versionedMessage, signatures⟩ 0
        (d.1, swapEv :: d.2)
      | none =>
        match env.tryLegacyTx with
        | some legacyTransaction =>
          let signedLegacy := env.signL legacyTransaction
          let signedTransactionBase64 := env.serializeL signedLegacy
          let signedTxRequest : SignedTransactionRequest :=
            { signed_transaction := signedTransactionBase64
              trade_id := swapResponse.trade_id
              tracking_id := env.config.trackingId }
          match env.submitResult 0 with
          | .ok signedTxResponse =>
            let logEv : Event :=
              if signedTxResponse.success then .log swapCompletedLog else .log swapFailedLog
            let poll := pollTransactionStatus env.statusResult 5 1000
            (.ok (), swapEv :: Event.submitCall 0 signedTxRequest :: logEv :: poll.2)
          | .error _ =>
            let d := stageFour env swapResponse 1
            (d.1, swapEv :: Event.submitCall 0 signedTxRequest :: d.2)
        | none =>
          let d := stageFour env swapResponse 0
          (d.1, swapEv :: d.2)

/-- `main` (lines 396-421): exit 1 when `executeWalletSwap` throws,
exit 0 otherwise. -/
def mainExitCode (env : Env) : Nat :=
  match (executeWalletSwap env).1 with
  | .ok _ => 0
  | .error _ => 1

/-! ## Wire codec for the complete-transaction variant

Modelled from the spec: the serialization and deserialization of the
complete-transaction wire variant are the SDK's
`VersionedTransaction.serialize` / `VersionedTransaction.deserialize`,
external collaborators not present in this repository.  The wire layout
is the one the spec's codec contract refers to: a compact-u16 signature
count, then that many 64-byte signatures, then the message bytes (which
the transaction-level codec treats as the trailing remainder). -/

/-- Modelled from the spec: the compact-u16 length prefix (little-endian
base-128 with continuation bits) used by the SDK's transaction codec. -/
def encodeCompactU16 (n : Nat) : List Nat :=
  if h : n < 128 then [n]
  else (n % 128 + 128) :: encodeCompactU16 (n / 128)
termination_by n
decreasing_by
  exact Nat.div_lt_self (Nat.lt_of_lt_of_le (by norm_num) (Nat.le_of_not_lt h)) (by norm_num)

/-- Modelled from the spec: read a compact-u16 length from the front of a
byte list, returning the value and the remaining bytes. -/
def decodeCompactU16 : List Nat → Option (Nat × List Nat)
  | [] => none
  | b :: rest =>
    if b < 128 then some (b, rest)
    else
      match decodeCompactU16 rest with
      | some (m, rest2) => some (m * 128 + (b - 128), rest2)
      | none => none

/-- A complete serialized transaction as the wire sees it: the signature
section followed by the message bytes. -/
structure WireTransaction where
  signatures : List (List Nat)
  messageBytes : List Nat
deriving DecidableEq, Repr

/-- Modelled from the spec: `VersionedTransaction.serialize` — compact
signature count, the 64-byte signatures, then the serialized message. -/
def serializeWire (t : WireTransaction) : List Nat :=
  encodeCompactU16 t.signatures.length ++ t.signatures.flatten ++ t.messageBytes

/-- Split off `n` signatures of 64 bytes each. -/
def takeSignatures : Nat → List Nat → Option (List (List Nat) × List Nat)
  | 0, bs => some ([], bs)
  | n + 1, bs =>
    if bs.length < 64 then none
    else
      match takeSignatures n (bs.drop 64) with
      | some (sigs, rest) => some (bs.take 64 :: sigs, rest)
      | none => none

/-- Modelled from the spec: `VersionedTransaction.deserialize` — read the
signature count, split off the signatures, and hand the remainder to the
message parser (the transaction-level codec carries it as-is). -/
def deserializeWire (bs : List Nat) : Option WireTransaction :=
  match decodeCompactU16 bs with
  | some (n, rest) =>
    match takeSignatures n rest with
    | some (sigs, msg) => some ⟨sigs, msg⟩
    | none => none
  | none => none

/-! ## Count helper lemmas -/

theorem countStatusCalls_append (l1 l2 : List Event) :
    countStatusCalls (l1 ++ l2) = countStatusCalls l1 + countStatusCalls l2 := by
  induction l1 with
  | nil => simp [countStatusCalls]
  | cons e l ih => cases e <;> simp [countStatusCalls, ih] <;> omega

theorem countSleeps_append (l1 l2 : List Event) :
    countSleeps (l1 ++ l2) = countSleeps l1 + countSleeps l2 := by
  induction l1 with
  | nil => simp [countSleeps]
  | cons e l ih => cases e <;> simp [countSleeps, ih] <;> omega

theorem countTradesCalls_append (l1 l2 : List Event) :
    countTradesCalls (l1 ++ l2) = countTradesCalls l1 + countTradesCalls l2 := by
  induction l1 with
  | nil => simp [countTradesCalls]
  | cons e l ih => cases e <;> simp [countTradesCalls, ih] <;> omega

/-! ## Poller step lemmas -/

theorem pollAux_succ_ok_terminal (oracle : Nat → Except GrpcError CheckTradeStatusResponse)
    (maxRetries delayMs k : Nat) (resp : CheckTradeStatusResponse)
    (h : oracle (maxRetries - (k + 1)) = .ok resp) (ht : isTerminal resp.status = true) :
    pollAux oracle maxRetries delayMs (k + 1) =
      (some resp, [Event.statusCall (maxRetries - (k + 1))]) := by
  simp [pollAux, h, ht]

theorem pollAux_succ_ok_nonterminal (oracle : Nat → Except GrpcError CheckTradeStatusResponse)
    (maxRetries delayMs k : Nat) (resp : CheckTradeStatusResponse)
    (h : oracle (maxRetries - (k + 1)) = .ok resp) (ht : isTerminal resp.status = false) :
    pollAux oracle maxRetries delayMs (k + 1) =
      ((pollAux oracle maxRetries delayMs k).1,
        Event.statusCall (maxRetries - (k + 1)) ::
          (if 0 < k then Event.sleep delayMs :: (pollAux oracle maxRetries delayMs k).2
           else (pollAux oracle maxRetries delayMs k).2)) := by
  simp [pollAux, h, ht]

theorem pollAux_succ_error_last (oracle : Nat → Except GrpcError CheckTradeStatusResponse)
    (maxRetries delayMs : Nat) (e : GrpcError)
    (h : oracle (maxRetries - 1) = .error e) :
    pollAux oracle maxRetries delayMs 1 =
      (none, [Event.statusCall (maxRetries - 1)]) := by
  simp [pollAux, h]

theorem pollAux_succ_error_cont (oracle : Nat → Except GrpcError CheckTradeStatusResponse)
    (maxRetries delayMs k : Nat) (e : GrpcError)
    (h : oracle (maxRetries - (k + 1)) = .error e) (hk : 0 < k) :
    pollAux oracle maxRetries delayMs (k + 1) =
      ((pollAux oracle maxRetries delayMs k).1,
        Event.statusCall (maxRetries - (k + 1)) ::
          Event.sleep delayMs :: (pollAux oracle maxRetries delayMs k).2) := by
  have hkne : ¬ (k = 0) := by omega
  simp [pollAux, h, hkne, hk]

/-! ## Poller lemmas -/

/-- When every status call up to the retry budget is non-terminal (either
a call-level error or a non-terminal status), the loop runs all its
remaining attempts, counts one status call per attempt and one
`delayMs` sleep between consecutive attempts, and ends with `none`. -/
theorem pollAux_nonfinal (oracle : Nat → Except GrpcError CheckTradeStatusResponse)
    (maxRetries delayMs : Nat)
    (h : ∀ j, j < maxRetries → nonFinalB (oracle j) = true) :
    ∀ remaining, remaining ≤ maxRetries →
      (pollAux oracle maxRetries delayMs remaining).1 = none ∧
      countStatusCalls (pollAux oracle maxRetries delayMs remaining).2 = remaining ∧
      countSleeps (pollAux oracle maxRetries delayMs remaining).2 = remaining - 1 ∧
      ∀ ms, Event.sleep ms ∈ (pollAux oracle maxRetries delayMs remaining).2 → ms = delayMs := by
  intro remaining
  induction remaining with
  | zero =>
    intro _
    refine ⟨rfl, rfl, rfl, ?_⟩
    intro ms hms
    simp [pollAux] at hms
  | succ k ih =>
    intro hle
    have hik : maxRetries - (k + 1) < maxRetries := by omega
    have hnf := h _ hik
    obtain ⟨ih1, ih2, ih3, ih4⟩ := ih (by omega)
    cases horacle : oracle (maxRetries - (k + 1)) with
    | ok resp =>
      have hterm : isTerminal resp.status = false := by
        simpa [nonFinalB, horacle] using hnf
      rw [pollAux_succ_ok_nonterminal oracle maxRetries delayMs k resp horacle hterm]
      rcases Nat.eq_zero_or_pos k with hk | hk
      · subst hk
        simp only [if_neg (by omega : ¬ (0 < 0))]
        refine ⟨ih1, ?_, ?_, ?_⟩
        · simp [countStatusCalls, ih2]
        · simp [countSleeps, ih3]
        · intro ms hms
          rcases List.mem_cons.mp hms with hms | hms
          · exact absurd hms (by simp)
          · exact ih4 ms hms
      · simp only [if_pos hk]
        refine ⟨ih1, ?_, ?_, ?_⟩
        · simp [countStatusCalls, ih2]
        · simp [countSleeps, ih3]; omega
        · intro ms hms
          rcases List.mem_cons.mp hms with hms | hms
          · exact absurd hms (by simp)
          · rcases List.mem_cons.mp hms with hms | hms
            · simpa using hms
            · exact ih4 ms hms
    | error e =>
      rcases Nat.eq_zero_or_pos k with hk | hk
      · subst hk
        rw [pollAux_succ_error_last oracle maxRetries delayMs e (by simpa using horacle)]
        refine ⟨rfl, by simp [countStatusCalls], by simp [countSleeps], ?_⟩
        intro ms hms
        rcases List.mem_cons.mp hms with hms | hms
        · exact absurd hms (by simp)
        · simp at hms
      · rw [pollAux_succ_error_cont oracle maxRetries delayMs k e horacle hk]
        refine ⟨ih1, ?_, ?_, ?_⟩
        · simp [countStatusCalls, ih2]
        · simp [countSleeps, ih3]; omega
        · intro ms hms
          rcases List.mem_cons.mp hms with hms | hms
          · exact absurd hms (by simp)
          · rcases List.mem_cons.mp hms with hms | hms
            · simpa using hms
            · exact ih4 ms hms

/-- When the first terminal response arrives at (1-based) attempt `N`,
the loop returns it and makes exactly `N - i₀` further status calls when
started `i₀ = maxRetries - remaining` attempts in. -/
theorem pollAux_terminal (oracle : Nat → Except GrpcError CheckTradeStatusResponse)
    (maxRetries delayMs N : Nat) (resp : CheckTradeStatusResponse)
    (hN1 : 1 ≤ N) (hNmax : N ≤ maxRetries)
    (hterm : oracle (N - 1) = .ok resp) (hfin : isTerminal resp.status = true)
    (hpre : ∀ j, j < N - 1 → nonFinalB (oracle j) = true) :
    ∀ remaining, remaining ≤ maxRetries → maxRetries - remaining ≤ N - 1 →
      (pollAux oracle maxRetries delayMs remaining).1 = some resp ∧
      countStatusCalls (pollAux oracle maxRetries delayMs remaining).2 =
        N - (maxRetries - remaining) := by
  intro remaining
  induction remaining with
  | zero => intro h1 h2; omega
  | succ k ih =>
    intro hle hstart
    by_cases hi : maxRetries - (k + 1) = N - 1
    · rw [pollAux_succ_ok_terminal oracle maxRetries delayMs k resp (hi ▸ hterm) hfin]
      exact ⟨rfl, by simp [countStatusCalls]; omega⟩
    · have hilt : maxRetries - (k + 1) < N - 1 := by omega
      have hnf := hpre _ hilt
      have hkpos : 0 < k := by omega
      obtain ⟨ih1, ih2⟩ := ih (by omega) (by omega)
      cases horacle : oracle (maxRetries - (k + 1)) with
      | ok resp2 =>
        have hterm2 : isTerminal resp2.status = false := by
          simpa [nonFinalB, horacle] using hnf
        rw [pollAux_succ_ok_nonterminal oracle maxRetries delayMs k resp2 horacle hterm2]
        simp only [if_pos hkpos]
        refine ⟨ih1, ?_⟩
        simp [countStatusCalls, ih2]
        omega
      | error e =>
        rw [pollAux_succ_error_cont oracle maxRetries delayMs k e horacle hkpos]
        refine ⟨ih1, ?_⟩
        simp [countStatusCalls, ih2]
        omega

/-- The poller only emits status calls and sleeps: it never issues a
submission or a trades-list call. -/
theorem pollAux_no_submit_no_trades (oracle : Nat → Except GrpcError CheckTradeStatusResponse)
    (maxRetries delayMs : Nat) :
    ∀ remaining,
      countTradesCalls (pollAux oracle maxRetries delayMs remaining).2 = 0 ∧
      countSubmitCalls (pollAux oracle maxRetries delayMs remaining).2 = 0 := by
  intro remaining
  induction remaining with
  | zero => exact ⟨rfl, rfl⟩
  | succ k ih =>
    cases horacle : oracle (maxRetries - (k + 1)) with
    | ok resp =>
      cases hterm : isTerminal resp.status with
      | true =>
        rw [pollAux_succ_ok_terminal oracle maxRetries delayMs k resp horacle hterm]
        exact ⟨rfl, rfl⟩
      | false =>
        rw [pollAux_succ_ok_nonterminal oracle maxRetries delayMs k resp horacle hterm]
        by_cases hk : 0 < k
        · simp only [if_pos hk]
          exact ⟨by simp [countTradesCalls, ih.1], by simp [countSubmitCalls, ih.2]⟩
        · simp only [if_neg hk]
          exact ⟨by simp [countTradesCalls, ih.1], by simp [countSubmitCalls, ih.2]⟩
    | error e =>
      by_cases hk : 0 < k
      · rw [pollAux_succ_error_cont oracle maxRetries delayMs k e horacle hk]
        exact ⟨by simp [countTradesCalls, ih.1], by simp [countSubmitCalls, ih.2]⟩
      · have hk0 : k = 0 := by omega
        subst hk0
        rw [pollAux_succ_error_last oracle maxRetries delayMs e (by simpa using horacle)]
        exact ⟨rfl, rfl⟩

/-! ## Claim C3 -/

/-- C3: for every `maxRetries ≥ 1` and `delayMs`, if every status-check
call returns a non-terminal status or fails with a call-level error, then
`pollTransactionStatus` issues exactly `maxRetries` status calls, sleeps
between consecutive attempts exactly `maxRetries - 1` times with every
sleep lasting `delayMs`, and returns "absent" (`none`) without raising an
error — even when the final attempt's call itself errors (`nonFinalB`
covers call-level errors, so the hypothesis admits an error on the last
attempt); an error on a non-final attempt consumes that attempt but does
not end polling. -/
theorem poll_exhausts_without_error
    (oracle : Nat → Except GrpcError CheckTradeStatusResponse)
    (maxRetries delayMs : Nat) (hmax : 1 ≤ maxRetries)
    (h : ∀ j, j < maxRetries → nonFinalB (oracle j) = true) :
    (pollTransactionStatus oracle maxRetries delayMs).1 = none ∧
    countStatusCalls (pollTransactionStatus oracle maxRetries delayMs).2 = maxRetries ∧
    countSleeps (pollTransactionStatus oracle maxRetries delayMs).2 = maxRetries - 1 ∧
    ∀ ms, Event.sleep ms ∈ (pollTransactionStatus oracle maxRetries delayMs).2 →
      ms = delayMs := by
  have hmain := pollAux_nonfinal oracle maxRetries delayMs h maxRetries (le_refl _)
  simpa [pollTransactionStatus] using hmain

/-- A status oracle that answers CONFIRMED (non-terminal) twice and then
errors on the final attempt. -/
def pollOracleC3 : Nat → Except GrpcError CheckTradeStatusResponse :=
  fun i => if i = 2 then .error ⟨"status check unavailable"⟩
           else .ok ⟨"trade-1", TradeStatus.CONFIRMED⟩

theorem poll_exhausts_without_error_witness :
    ((1 : Nat) ≤ 3 ∧ ∀ j, j < 3 → nonFinalB (pollOracleC3 j) = true) ∧
    ((pollTransactionStatus pollOracleC3 3 250).1 = none ∧
     countStatusCalls (pollTransactionStatus pollOracleC3 3 250).2 = 3 ∧
     countSleeps (pollTransactionStatus pollOracleC3 3 250).2 = 3 - 1 ∧
     ∀ ms, Event.sleep ms ∈ (pollTransactionStatus pollOracleC3 3 250).2 → ms = 250) :=
  ⟨⟨by norm_num, by decide⟩,
   poll_exhausts_without_error pollOracleC3 3 250 (by norm_num) (by decide)⟩

/-! ## Claim C4 -/

/-- C4: for every response sequence whose first terminal status occurs at
(1-based) attempt `N ≤ maxRetries` — every earlier attempt being a
call-level error or a non-terminal status — `pollTransactionStatus`
returns exactly that response and issues exactly `N` status-check calls,
so no further calls are made after the terminal one. -/
theorem poll_returns_first_terminal
    (oracle : Nat → Except GrpcError CheckTradeStatusResponse)
    (maxRetries delayMs N : Nat) (resp : CheckTradeStatusResponse)
    (hN1 : 1 ≤ N) (hNmax : N ≤ maxRetries)
    (hterm : oracle (N - 1) = .ok resp) (hfin : isTerminal resp.status = true)
    (hpre : ∀ j, j < N - 1 → nonFinalB (oracle j) = true) :
    (pollTransactionStatus oracle maxRetries delayMs).1 = some resp ∧
    countStatusCalls (pollTransactionStatus oracle maxRetries delayMs).2 = N := by
  have hmain := pollAux_terminal oracle maxRetries delayMs N resp hN1 hNmax hterm hfin hpre
    maxRetries (le_refl _) (by omega)
  simpa [pollTransactionStatus] using hmain

/-- A status oracle whose first terminal answer (SETTLED) is the second
one, after a non-terminal SIGNED. -/
def pollOracleC4 : Nat → Except GrpcError CheckTradeStatusResponse :=
  fun i => if i = 0 then .ok ⟨"trade-1", TradeStatus.SIGNED⟩
           else .ok ⟨"trade-1", TradeStatus.SETTLED⟩

theorem poll_returns_first_terminal_witness :
    ((1 : Nat) ≤ 2 ∧ (2 : Nat) ≤ 5 ∧
     pollOracleC4 (2 - 1) = .ok ⟨"trade-1", TradeStatus.SETTLED⟩ ∧
     isTerminal TradeStatus.SETTLED = true ∧
     ∀ j, j < 2 - 1 → nonFinalB (pollOracleC4 j) = true) ∧
    ((pollTransactionStatus pollOracleC4 5 1000).1 = some ⟨"trade-1", TradeStatus.SETTLED⟩ ∧
     countStatusCalls (pollTransactionStatus pollOracleC4 5 1000).2 = 2) :=
  ⟨⟨by norm_num, by norm_num, rfl, by decide, by decide⟩,
   poll_returns_first_terminal pollOracleC4 5 1000 2 ⟨"trade-1", TradeStatus.SETTLED⟩
     (by norm_num) (by norm_num) rfl (by decide) (by decide)⟩

/-! ## Claim C8 -/

/-- C8: the process exit code is 0 exactly when `executeWalletSwap`
completes without error and 1 exactly when some step raised a failure;
no other exit code is produced. -/
theorem exit_code_zero_or_one :
    ∀ env : Env,
      (mainExitCode env = 0 ∨ mainExitCode env = 1) ∧
      (mainExitCode env = 0 ↔ ∃ u, (executeWalletSwap env).1 = .ok u) ∧
      (mainExitCode env = 1 ↔ ∃ e, (executeWalletSwap env).1 = .error e) := by
  intro env
  unfold mainExitCode
  cases h : (executeWalletSwap env).1 with
  | ok u => simp [h]
  | error e => simp [h]

/-! ## Claim C9 -/

/-- C9: the swap request sent to the gateway always carries
`network = DEVNET`: the built request's network field is DEVNET for every
configuration, and replacing the configured network value changes nothing
about the built request (the configured value is ignored). -/
theorem swap_request_network_always_devnet :
    ∀ (config : WalletEmulatorConfig) (walletPublicKey : String) (n : Network),
      (mkSwapRequest config walletPublicKey).network = Network.DEVNET ∧
      mkSwapRequest { config with network := n } walletPublicKey =
        mkSwapRequest config walletPublicKey := by
  intro config w n
  exact ⟨rfl, rfl⟩

/-! ## Claim C2 -/

/-- C2 (amended): when the gateway call succeeded but every
deserialization attempt fails — the direct versioned-transaction parse,
the bare-message parse (hence also its verbatim re-run at the manual
stage), the legacy parse, and the zero-padded parse — the workflow fails
with the decode-exhausted error carrying its fixed short diagnostic, and
the run's whole trace is the single initial swap call: no submission,
status-check or trades-list call is issued and no further guess is made.
(The error does not carry the payload's byte length; the buffer length is
only printed to the console before the decode attempts.) -/
theorem decode_exhausted_fails_clean
    (env : Env) (r : SwapResponse)
    (h1 : env.swapResult = .ok r)
    (h2 : env.tryVersionedTx = none) (h3 : env.tryVersionedMsg = none)
    (h4 : env.tryLegacyTx = none) (h5 : env.tryPaddedVersionedTx = none) :
    executeWalletSwap env =
      (.error (.decodeFailed decodeExhaustedMessage),
       [Event.swapCall (mkSwapRequest env.config env.keypair.publicKey.toBase58)]) := by
  simp only [executeWalletSwap, stageFour, h1, h2, h3, h4, h5]

/-- A run whose 7-byte payload fails every deserialization attempt. -/
def envAllDecodeFail : Env :=
  { config := ⟨"[]", "localhost", 50051, "mintX", "mintY", 1000, 0,
               Network.DEVNET, "id0", "", ""⟩
    keypair := ⟨⟨[1]⟩⟩
    swapResult := .ok ⟨[0, 1, 2, 3, 4, 5, 6], "trade-1"⟩
    tryVersionedTx := none
    tryVersionedMsg := none
    tryLegacyTx := none
    tryPaddedVersionedTx := none
    signV := fun t => t
    serializeV := fun _ => ""
    signL := fun t => t
    serializeL := fun _ => ""
    submitResult := fun _ => .error ⟨"offline"⟩
    statusResult := fun _ => .error ⟨"offline"⟩
    tradesResult := .error ⟨"offline"⟩ }

set_option maxRecDepth 4096 in
/-- C2 counterexample: on a 7-byte payload failing all decode variants
the thrown error is the fixed diagnostic string, and that string does not
contain the payload's byte length — so the claim's "carries the payload's
byte length" is false of the code. -/
theorem decode_error_lacks_byte_length :
    (∃ r, envAllDecodeFail.swapResult = .ok r ∧ r.unsigned_transaction.length = 7) ∧
    (executeWalletSwap envAllDecodeFail).1 =
      .error (.decodeFailed decodeExhaustedMessage) ∧
    ¬ ((toString (7 : Nat)).toList <:+: decodeExhaustedMessage.toList) :=
  ⟨⟨⟨[0, 1, 2, 3, 4, 5, 6], "trade-1"⟩, rfl, rfl⟩, rfl, by decide⟩

theorem decode_exhausted_fails_clean_witness :
    (envAllDecodeFail.swapResult = .ok ⟨[0, 1, 2, 3, 4, 5, 6], "trade-1"⟩ ∧
     envAllDecodeFail.tryVersionedTx = none ∧
     envAllDecodeFail.tryVersionedMsg = none ∧
     envAllDecodeFail.tryLegacyTx = none ∧
     envAllDecodeFail.tryPaddedVersionedTx = none) ∧
    executeWalletSwap envAllDecodeFail =
      (.error (.decodeFailed decodeExhaustedMessage),
       [Event.swapCall (mkSwapRequest envAllDecodeFail.config
          envAllDecodeFail.keypair.publicKey.toBase58)]) :=
  ⟨⟨rfl, rfl, rfl, rfl, rfl⟩,
   decode_exhausted_fails_clean envAllDecodeFail ⟨[0, 1, 2, 3, 4, 5, 6], "trade-1"⟩
     rfl rfl rfl rfl rfl⟩

/-! ## Claim C1 -/

/-- C1: the decode fallback chain tries its strategies in a fixed order.
(1) A successful complete-transaction parse wins and feeds the unified
post-signing path with the parsed transaction unchanged.  (2) When it
fails, a successful bare-message parse synthesizes a transaction pairing
the message with a placeholder (`null`-filled) signature list whose
length equals the header's declared required-signature count, and feeds
the same unified path.  (3) When both fail, a successful legacy parse is
signed immediately and routed directly to submission — the second gateway
call of the run is already the submission of the legacy-signed payload —
and, when that submission resolves, the branch polls and returns right
there, bypassing the unified post-signing path (in particular the run
makes no trades-list call). -/
theorem decode_chain_order
    (envA : Env) (rA : SwapResponse) (vtxA : VersionedTransaction)
    (hA1 : envA.swapResult = .ok rA) (hA2 : envA.tryVersionedTx = some vtxA)
    (envB : Env) (rB : SwapResponse) (mB : VersionedMessage)
    (hB1 : envB.swapResult = .ok rB) (hB2 : envB.tryVersionedTx = none)
    (hB3 : envB.tryVersionedMsg = some mB)
    (envC : Env) (rC : SwapResponse) (lC : LegacyTransaction)
    (respC : SignedTransactionResponse)
    (hC1 : envC.swapResult = .ok rC) (hC2 : envC.tryVersionedTx = none)
    (hC3 : envC.tryVersionedMsg = none) (hC4 : envC.tryLegacyTx = some lC)
    (hC5 : envC.submitResult 0 = .ok respC) :
    (executeWalletSwap envA =
      ((afterDecode envA rA vtxA 0).1,
        Event.swapCall (mkSwapRequest envA.config envA.keypair.publicKey.toBase58) ::
          (afterDecode envA rA vtxA 0).2)) ∧
    ((List.replicate mB.header.numRequiredSignatures
        (none : Option (List Nat))).length = mB.header.numRequiredSignatures ∧
     executeWalletSwap envB =
      ((afterDecode envB rB ⟨mB, List.replicate mB.header.numRequiredSignatures none⟩ 0).1,
        Event.swapCall (mkSwapRequest envB.config envB.keypair.publicKey.toBase58) ::
          (afterDecode envB rB
            ⟨mB, List.replicate mB.header.numRequiredSignatures none⟩ 0).2)) ∧
    (executeWalletSwap envC =
      (.ok (),
        Event.swapCall (mkSwapRequest envC.config envC.keypair.publicKey.toBase58) ::
          Event.submitCall 0 ⟨envC.serializeL (envC.signL lC), rC.trade_id,
            envC.config.trackingId⟩ ::
          (if respC.success then Event.log swapCompletedLog else Event.log swapFailedLog) ::
          (pollTransactionStatus envC.statusResult 5 1000).2) ∧
     countTradesCalls (executeWalletSwap envC).2 = 0) := by
  refine ⟨?_, ⟨List.length_replicate _ _, ?_⟩, ?_, ?_⟩
  · simp only [executeWalletSwap, hA1, hA2]
  · simp only [executeWalletSwap, hB1, hB2, hB3]
  · simp only [executeWalletSwap, hC1, hC2, hC3, hC4, hC5]
  · simp only [executeWalletSwap, hC1, hC2, hC3, hC4, hC5]
    cases respC.success <;>
      simp [countTradesCalls, pollTransactionStatus,
        (pollAux_no_submit_no_trades envC.statusResult 5 1000 5).1]

/-- A run whose payload parses directly as a complete versioned
transaction (the wallet key `[1]` is its sole required signer). -/
def envStage1 : Env :=
  { envAllDecodeFail with
      tryVersionedTx := some ⟨⟨⟨1, 0, 0⟩, [⟨[1]⟩]⟩, [none]⟩ }

/-- A run whose payload parses only as a bare versioned message. -/
def envStage2 : Env :=
  { envAllDecodeFail with
      tryVersionedMsg := some ⟨⟨1, 0, 0⟩, [⟨[1]⟩]⟩ }

/-- A run whose payload parses only as a legacy transaction, with a
submission that resolves successfully and a first status check that is
already terminal. -/
def envStage3 : Env :=
  { envAllDecodeFail with
      tryLegacyTx := some ⟨[9, 9]⟩
      submitResult := fun _ => .ok ⟨"trade-1", true, []⟩
      statusResult := fun _ => .ok ⟨"trade-1", TradeStatus.SETTLED⟩ }

theorem decode_chain_order_witness :
    (envStage1.swapResult = .ok ⟨[0, 1, 2, 3, 4, 5, 6], "trade-1"⟩ ∧
     envStage1.tryVersionedTx = some ⟨⟨⟨1, 0, 0⟩, [⟨[1]⟩]⟩, [none]⟩ ∧
     envStage2.tryVersionedTx = none ∧
     envStage2.tryVersionedMsg = some ⟨⟨1, 0, 0⟩, [⟨[1]⟩]⟩ ∧
     envStage3.tryVersionedTx = none ∧ envStage3.tryVersionedMsg = none ∧
     envStage3.tryLegacyTx = some ⟨[9, 9]⟩ ∧
     envStage3.submitResult 0 = .ok ⟨"trade-1", true, []⟩) ∧
    (executeWalletSwap envStage1 =
      ((afterDecode envStage1 ⟨[0, 1, 2, 3, 4, 5, 6], "trade-1"⟩
          ⟨⟨⟨1, 0, 0⟩, [⟨[1]⟩]⟩, [none]⟩ 0).1,
        Event.swapCall (mkSwapRequest envStage1.config
          envStage1.keypair.publicKey.toBase58) ::
          (afterDecode envStage1 ⟨[0, 1, 2, 3, 4, 5, 6], "trade-1"⟩
            ⟨⟨⟨1, 0, 0⟩, [⟨[1]⟩]⟩, [none]⟩ 0).2)) ∧
    ((List.replicate (1 : Nat) (none : Option (List Nat))).length = 1 ∧
     executeWalletSwap envStage2 =
      ((afterDecode envStage2 ⟨[0, 1, 2, 3, 4, 5, 6], "trade-1"⟩
          ⟨⟨⟨1, 0, 0⟩, [⟨[1]⟩]⟩, List.replicate 1 none⟩ 0).1,
        Event.swapCall (mkSwapRequest envStage2.config
          envStage2.keypair.publicKey.toBase58) ::
          (afterDecode envStage2 ⟨[0, 1, 2, 3, 4, 5, 6], "trade-1"⟩
            ⟨⟨⟨1, 0, 0⟩, [⟨[1]⟩]⟩, List.replicate 1 none⟩ 0).2)) ∧
    (executeWalletSwap envStage3 =
      (.ok (),
        Event.swapCall (mkSwapRequest envStage3.config
          envStage3.keypair.publicKey.toBase58) ::
          Event.submitCall 0 ⟨envStage3.serializeL (envStage3.signL ⟨[9, 9]⟩),
            "trade-1", envStage3.config.trackingId⟩ ::
          (if (true : Bool) then Event.log swapCompletedLog else Event.log swapFailedLog) ::
          (pollTransactionStatus envStage3.statusResult 5 1000).2) ∧
     countTradesCalls (executeWalletSwap envStage3).2 = 0) :=
  ⟨⟨rfl, rfl, rfl, rfl, rfl, rfl, rfl, rfl⟩,
   decode_chain_order envStage1 ⟨[0, 1, 2, 3, 4, 5, 6], "trade-1"⟩
     ⟨⟨⟨1, 0, 0⟩, [⟨[1]⟩]⟩, [none]⟩ rfl rfl
     envStage2 ⟨[0, 1, 2, 3, 4, 5, 6], "trade-1"⟩ ⟨⟨1, 0, 0⟩, [⟨[1]⟩]⟩ rfl rfl rfl
     envStage3 ⟨[0, 1, 2, 3, 4, 5, 6], "trade-1"⟩ ⟨[9, 9]⟩ ⟨"trade-1", true, []⟩
     rfl rfl rfl rfl rfl⟩

/-- A message declaring zero required signatures has an empty
required-signer list, so the wallet is never among them. -/
theorem isWalletRequiredSigner_zero (env : Env) (t : VersionedTransaction)
    (h : t.message.header.numRequiredSignatures = 0) :
    isWalletRequiredSigner env t = false := by
  simp [isWalletRequiredSigner, h]

/-! ## Claim C5 -/

/-- C5: on the unified post-decode path, a decoded versioned transaction
whose header declares at least one required signature and whose
required-signer list does not contain the wallet's public key makes the
workflow fail with the not-required-signer error, emitting no event at
all — in particular no submission call; and a transaction declaring zero
required signatures instead proceeds without signing: the submission that
follows carries the serialization of the transaction as decoded, with
`signV` never applied. -/
theorem not_required_signer_fails_without_submit
    (env1 : Env) (r1 : SwapResponse) (vtx1 : VersionedTransaction) (k1 : Nat)
    (h1ge : 1 ≤ vtx1.message.header.numRequiredSignatures)
    (h1not : isWalletRequiredSigner env1 vtx1 = false)
    (env2 : Env) (r2 : SwapResponse) (vtx2 : VersionedTransaction) (k2 : Nat)
    (h2zero : vtx2.message.header.numRequiredSignatures = 0) :
    (afterDecode env1 r1 vtx1 k1 =
       (.error (.notRequiredSigner notRequiredSignerMessage), []) ∧
     countSubmitCalls (afterDecode env1 r1 vtx1 k1).2 = 0) ∧
    (∃ rest, (afterDecode env2 r2 vtx2 k2).2 =
       Event.submitCall k2
         ⟨env2.serializeV vtx2, r2.trade_id, env2.config.trackingId⟩ :: rest) := by
  constructor
  · have hcond : isWalletRequiredSigner env1 vtx1 = false ∧
        vtx1.message.header.numRequiredSignatures ≠ 0 := ⟨h1not, by omega⟩
    constructor
    · simp only [afterDecode]
      rw [if_pos hcond]
    · simp only [afterDecode]
      rw [if_pos hcond]
      rfl
  · have hIs := isWalletRequiredSigner_zero env2 vtx2 h2zero
    cases hsub : env2.submitResult k2 with
    | error e =>
      refine ⟨[], ?_⟩
      simp [afterDecode, hIs, h2zero, hsub]
    | ok resp =>
      cases htr : env2.tradesResult with
      | ok v =>
        refine ⟨(if resp.success then Event.log swapCompletedLog else Event.log swapFailedLog) ::
          ((pollTransactionStatus env2.statusResult 5 1000).2 ++
            [Event.tradesCall ⟨env2.keypair.publicKey.toBase58, 10, 1⟩]), ?_⟩
        simp [afterDecode, hIs, h2zero, hsub, htr]
      | error e =>
        refine ⟨(if resp.success then Event.log swapCompletedLog else Event.log swapFailedLog) ::
          ((pollTransactionStatus env2.statusResult 5 1000).2 ++
            [Event.tradesCall ⟨env2.keypair.publicKey.toBase58, 10, 1⟩]), ?_⟩
        simp [afterDecode, hIs, h2zero, hsub, htr]

/-- A run whose versioned transaction requires one signature from a key
that is not the wallet's. -/
def envWrongSigner : Env :=
  { envAllDecodeFail with
      tryVersionedTx := some ⟨⟨⟨1, 0, 0⟩, [⟨[2]⟩]⟩, [none]⟩ }

/-- A run whose versioned transaction declares zero required signatures. -/
def envZeroSigners : Env :=
  { envAllDecodeFail with
      tryVersionedTx := some ⟨⟨⟨0, 0, 0⟩, [⟨[2]⟩]⟩, []⟩
      submitResult := fun _ => .ok ⟨"trade-1", true, []⟩
      statusResult := fun _ => .ok ⟨"trade-1", TradeStatus.SETTLED⟩
      tradesResult := .ok ⟨[], 1, 1⟩ }

theorem not_required_signer_fails_without_submit_witness :
    ((1 : Nat) ≤ 1 ∧
     isWalletRequiredSigner envWrongSigner ⟨⟨⟨1, 0, 0⟩, [⟨[2]⟩]⟩, [none]⟩ = false ∧
     (0 : Nat) = 0) ∧
    ((afterDecode envWrongSigner ⟨[0, 1, 2, 3, 4, 5, 6], "trade-1"⟩
        ⟨⟨⟨1, 0, 0⟩, [⟨[2]⟩]⟩, [none]⟩ 0 =
        (.error (.notRequiredSigner notRequiredSignerMessage), []) ∧
      countSubmitCalls (afterDecode envWrongSigner ⟨[0, 1, 2, 3, 4, 5, 6], "trade-1"⟩
        ⟨⟨⟨1, 0, 0⟩, [⟨[2]⟩]⟩, [none]⟩ 0).2 = 0) ∧
     (∃ rest, (afterDecode envZeroSigners ⟨[0, 1, 2, 3, 4, 5, 6], "trade-1"⟩
        ⟨⟨⟨0, 0, 0⟩, [⟨[2]⟩]⟩, []⟩ 0).2 =
        Event.submitCall 0 ⟨envZeroSigners.serializeV ⟨⟨⟨0, 0, 0⟩, [⟨[2]⟩]⟩, []⟩,
          "trade-1", envZeroSigners.config.trackingId⟩ :: rest)) :=
  ⟨⟨le_refl 1, by decide, rfl⟩,
   not_required_signer_fails_without_submit
     envWrongSigner ⟨[0, 1, 2, 3, 4, 5, 6], "trade-1"⟩
       ⟨⟨⟨1, 0, 0⟩, [⟨[2]⟩]⟩, [none]⟩ 0 (le_refl 1) (by decide)
     envZeroSigners ⟨[0, 1, 2, 3, 4, 5, 6], "trade-1"⟩
       ⟨⟨⟨0, 0, 0⟩, [⟨[2]⟩]⟩, []⟩ 0 rfl⟩

/-! ## Claim C6 -/

/-- C6: whenever the submission call resolves with `success = false` on
the unified path, the workflow logs the failure line and still proceeds —
the poller's events follow the log and the trades-list call follows the
poll — rather than aborting because of the flag: the run's outcome is
decided by the later trades-list call, not by `success`. -/
theorem submit_failure_still_polls
    (env : Env) (r : SwapResponse) (vtx : VersionedTransaction) (k : Nat)
    (resp : SignedTransactionResponse)
    (hsig : isWalletRequiredSigner env vtx = true ∨
      vtx.message.header.numRequiredSignatures = 0)
    (hsub : env.submitResult k = .ok resp) (hfail : resp.success = false) :
    (afterDecode env r vtx k).2 =
      Event.submitCall k
          ⟨env.serializeV (if isWalletRequiredSigner env vtx then env.signV vtx else vtx),
           r.trade_id, env.config.trackingId⟩ ::
        Event.log swapFailedLog ::
        ((pollTransactionStatus env.statusResult 5 1000).2 ++
          [Event.tradesCall ⟨env.keypair.publicKey.toBase58, 10, 1⟩]) ∧
    (afterDecode env r vtx k).1 =
      (match env.tradesResult with
       | .ok _ => .ok ()
       | .error e => .error (.gateway e.message)) := by
  have hcond : ¬(isWalletRequiredSigner env vtx = false ∧
      vtx.message.header.numRequiredSignatures ≠ 0) := by
    rcases hsig with h | h
    · simp [h]
    · simp [h]
  cases htr : env.tradesResult with
  | ok v => simp [afterDecode, hcond, hsub, hfail, htr]
  | error e => simp [afterDecode, hcond, hsub, hfail, htr]

/-- A run whose versioned transaction is signed by the wallet but whose
submission reports `success = false`. -/
def envSubmitFailed : Env :=
  { envAllDecodeFail with
      tryVersionedTx := some ⟨⟨⟨1, 0, 0⟩, [⟨[1]⟩]⟩, [none]⟩
      submitResult := fun _ => .ok ⟨"trade-1", false, ["slippage"]⟩
      statusResult := fun _ => .ok ⟨"trade-1", TradeStatus.CANCELLED⟩
      tradesResult := .ok ⟨[], 1, 1⟩ }

theorem submit_failure_still_polls_witness :
    ((isWalletRequiredSigner envSubmitFailed ⟨⟨⟨1, 0, 0⟩, [⟨[1]⟩]⟩, [none]⟩ = true ∨
      (1 : Nat) = 0) ∧
     envSubmitFailed.submitResult 0 = .ok ⟨"trade-1", false, ["slippage"]⟩ ∧
     (false : Bool) = false) ∧
    ((afterDecode envSubmitFailed ⟨[0, 1, 2, 3, 4, 5, 6], "trade-1"⟩
        ⟨⟨⟨1, 0, 0⟩, [⟨[1]⟩]⟩, [none]⟩ 0).2 =
      Event.submitCall 0
          ⟨envSubmitFailed.serializeV
            (if isWalletRequiredSigner envSubmitFailed ⟨⟨⟨1, 0, 0⟩, [⟨[1]⟩]⟩, [none]⟩ then
              envSubmitFailed.signV ⟨⟨⟨1, 0, 0⟩, [⟨[1]⟩]⟩, [none]⟩
            else ⟨⟨⟨1, 0, 0⟩, [⟨[1]⟩]⟩, [none]⟩),
           "trade-1", envSubmitFailed.config.trackingId⟩ ::
        Event.log swapFailedLog ::
        ((pollTransactionStatus envSubmitFailed.statusResult 5 1000).2 ++
          [Event.tradesCall ⟨envSubmitFailed.keypair.publicKey.toBase58, 10, 1⟩]) ∧
     (afterDecode envSubmitFailed ⟨[0, 1, 2, 3, 4, 5, 6], "trade-1"⟩
        ⟨⟨⟨1, 0, 0⟩, [⟨[1]⟩]⟩, [none]⟩ 0).1 =
      (match envSubmitFailed.tradesResult with
       | .ok _ => .ok ()
       | .error e => .error (.gateway e.message))) :=
  ⟨⟨Or.inl (by decide), rfl, rfl⟩,
   submit_failure_still_polls envSubmitFailed ⟨[0, 1, 2, 3, 4, 5, 6], "trade-1"⟩
     ⟨⟨⟨1, 0, 0⟩, [⟨[1]⟩]⟩, [none]⟩ 0 ⟨"trade-1", false, ["slippage"]⟩
     (Or.inl (by decide)) rfl rfl⟩

/-! ## Claim C10 -/

/-- A run whose payload decodes only via the legacy fallback and whose
submission call rejects. -/
def envLegacyReject : Env :=
  { envAllDecodeFail with tryLegacyTx := some ⟨[9, 9]⟩ }

/-- C10 counterexample: with a payload that decodes only via the
legacy-transaction fallback but a submission call that rejects, the
workflow does NOT poll the trade status and does NOT return from
`executeWalletSwap` inside that branch: the rejection is caught by the
catch that guards `Transaction.from`, the chain falls through to the
manual-parsing stage, and the run fails with the decode-exhausted error
after zero status-check calls. -/
theorem legacy_submit_rejection_escapes_branch :
    envLegacyReject.tryVersionedTx = none ∧
    envLegacyReject.tryVersionedMsg = none ∧
    envLegacyReject.tryLegacyTx = some ⟨[9, 9]⟩ ∧
    envLegacyReject.tryPaddedVersionedTx = none ∧
    (∃ e, envLegacyReject.submitResult 0 = .error e) ∧
    (executeWalletSwap envLegacyReject).1 =
      .error (.decodeFailed decodeExhaustedMessage) ∧
    countStatusCalls (executeWalletSwap envLegacyReject).2 = 0 :=
  ⟨rfl, rfl, rfl, rfl, ⟨⟨"offline"⟩, rfl⟩, rfl, rfl⟩

/-- C10 (amended): (A) whenever the payload decodes only via the legacy
fallback AND the submission call resolves, the workflow submits, polls
and returns inside that branch, and the trades-list query is never
issued; (B) when that submission call instead rejects, the branch is
escaped — the rejection is swallowed by the decode chain's catch — and
with no other decode variant succeeding the run fails with the
decode-exhausted error, still with no status poll and no trades-list
query; (C) on the versioned-transaction path the trades-list query is
issued exactly once, after the polling events complete. -/
theorem legacy_branch_isolation
    (envA : Env) (rA : SwapResponse) (lA : LegacyTransaction)
    (respA : SignedTransactionResponse)
    (hA1 : envA.swapResult = .ok rA) (hA2 : envA.tryVersionedTx = none)
    (hA3 : envA.tryVersionedMsg = none) (hA4 : envA.tryLegacyTx = some lA)
    (hA5 : envA.submitResult 0 = .ok respA)
    (envB : Env) (rB : SwapResponse) (lB : LegacyTransaction) (eB : GrpcError)
    (hB1 : envB.swapResult = .ok rB) (hB2 : envB.tryVersionedTx = none)
    (hB3 : envB.tryVersionedMsg = none) (hB4 : envB.tryLegacyTx = some lB)
    (hB5 : envB.submitResult 0 = .error eB) (hB6 : envB.tryPaddedVersionedTx = none)
    (envC : Env) (rC : SwapResponse) (vtxC : VersionedTransaction)
    (respC : SignedTransactionResponse)
    (hC1 : envC.swapResult = .ok rC) (hC2 : envC.tryVersionedTx = some vtxC)
    (hC3 : isWalletRequiredSigner envC vtxC = true)
    (hC4 : envC.submitResult 0 = .ok respC) :
    (executeWalletSwap envA =
       (.ok (),
        Event.swapCall (mkSwapRequest envA.config envA.keypair.publicKey.toBase58) ::
          Event.submitCall 0 ⟨envA.serializeL (envA.signL lA), rA.trade_id,
            envA.config.trackingId⟩ ::
          (if respA.success then Event.log swapCompletedLog else Event.log swapFailedLog) ::
          (pollTransactionStatus envA.statusResult 5 1000).2) ∧
     countTradesCalls (executeWalletSwap envA).2 = 0) ∧
    ((executeWalletSwap envB).1 = .error (.decodeFailed decodeExhaustedMessage) ∧
     countStatusCalls (executeWalletSwap envB).2 = 0 ∧
     countTradesCalls (executeWalletSwap envB).2 = 0) ∧
    ((executeWalletSwap envC).2 =
       Event.swapCall (mkSwapRequest envC.config envC.keypair.publicKey.toBase58) ::
         Event.submitCall 0 ⟨envC.serializeV (envC.signV vtxC), rC.trade_id,
           envC.config.trackingId⟩ ::
         (if respC.success then Event.log swapCompletedLog else Event.log swapFailedLog) ::
         ((pollTransactionStatus envC.statusResult 5 1000).2 ++
           [Event.tradesCall ⟨envC.keypair.publicKey.toBase58, 10, 1⟩]) ∧
     countTradesCalls (executeWalletSwap envC).2 = 1) := by
  refine ⟨⟨?_, ?_⟩, ?_, ?_⟩
  · simp only [executeWalletSwap, hA1, hA2, hA3, hA4, hA5]
  · simp only [executeWalletSwap, hA1, hA2, hA3, hA4, hA5]
    cases respA.success <;>
      simp [countTradesCalls, pollTransactionStatus,
        (pollAux_no_submit_no_trades envA.statusResult 5 1000 5).1]
  · simp only [executeWalletSwap, stageFour, hB1, hB2, hB3, hB4, hB5, hB6]
    exact ⟨trivial, rfl, rfl⟩
  · have hcond : ¬(isWalletRequiredSigner envC vtxC = false ∧
        vtxC.message.header.numRequiredSignatures ≠ 0) := by simp [hC3]
    cases htr : envC.tradesResult with
    | ok v =>
      constructor
      · simp [executeWalletSwap, afterDecode, hC1, hC2, hcond, hC3, hC4, htr]
      · simp only [executeWalletSwap, afterDecode, hC1, hC2, hC4, htr]
        rw [if_neg hcond]
        simp only [hC4, htr]
        cases respC.success <;>
          simp [countTradesCalls, countTradesCalls_append, pollTransactionStatus,
            (pollAux_no_submit_no_trades envC.statusResult 5 1000 5).1]
    | error e =>
      constructor
      · simp [executeWalletSwap, afterDecode, hC1, hC2, hcond, hC3, hC4, htr]
      · simp only [executeWalletSwap, afterDecode, hC1, hC2, hC4, htr]
        rw [if_neg hcond]
        simp only [hC4, htr]
        cases respC.success <;>
          simp [countTradesCalls, countTradesCalls_append, pollTransactionStatus,
            (pollAux_no_submit_no_trades envC.statusResult 5 1000 5).1]

/-- A run on the versioned path with a resolving submission, used to
witness the trades-list part of the legacy-isolation theorem. -/
def envVersionedOk : Env :=
  { envAllDecodeFail with
      tryVersionedTx := some ⟨⟨⟨1, 0, 0⟩, [⟨[1]⟩]⟩, [none]⟩
      submitResult := fun _ => .ok ⟨"trade-1", true, []⟩
      statusResult := fun _ => .ok ⟨"trade-1", TradeStatus.SETTLED⟩
      tradesResult := .ok ⟨[], 1, 1⟩ }

theorem legacy_branch_isolation_witness :
    (envStage3.swapResult = .ok ⟨[0, 1, 2, 3, 4, 5, 6], "trade-1"⟩ ∧
     envStage3.tryLegacyTx = some ⟨[9, 9]⟩ ∧
     envStage3.submitResult 0 = .ok ⟨"trade-1", true, []⟩ ∧
     envLegacyReject.submitResult 0 = .error ⟨"offline"⟩ ∧
     envVersionedOk.tryVersionedTx = some ⟨⟨⟨1, 0, 0⟩, [⟨[1]⟩]⟩, [none]⟩ ∧
     isWalletRequiredSigner envVersionedOk ⟨⟨⟨1, 0, 0⟩, [⟨[1]⟩]⟩, [none]⟩ = true) ∧
    ((executeWalletSwap envStage3 =
       (.ok (),
        Event.swapCall (mkSwapRequest envStage3.config envStage3.keypair.publicKey.toBase58) ::
          Event.submitCall 0 ⟨envStage3.serializeL (envStage3.signL ⟨[9, 9]⟩), "trade-1",
            envStage3.config.trackingId⟩ ::
          (if (true : Bool) then Event.log swapCompletedLog else Event.log swapFailedLog) ::
          (pollTransactionStatus envStage3.statusResult 5 1000).2) ∧
      countTradesCalls (executeWalletSwap envStage3).2 = 0) ∧
     ((executeWalletSwap envLegacyReject).1 = .error (.decodeFailed decodeExhaustedMessage) ∧
      countStatusCalls (executeWalletSwap envLegacyReject).2 = 0 ∧
      countTradesCalls (executeWalletSwap envLegacyReject).2 = 0) ∧
     ((executeWalletSwap envVersionedOk).2 =
       Event.swapCall (mkSwapRequest envVersionedOk.config
           envVersionedOk.keypair.publicKey.toBase58) ::
         Event.submitCall 0 ⟨envVersionedOk.serializeV
             (envVersionedOk.signV ⟨⟨⟨1, 0, 0⟩, [⟨[1]⟩]⟩, [none]⟩), "trade-1",
           envVersionedOk.config.trackingId⟩ ::
         (if (true : Bool) then Event.log swapCompletedLog else Event.log swapFailedLog) ::
         ((pollTransactionStatus envVersionedOk.statusResult 5 1000).2 ++
           [Event.tradesCall ⟨envVersionedOk.keypair.publicKey.toBase58, 10, 1⟩]) ∧
      countTradesCalls (executeWalletSwap envVersionedOk).2 = 1)) :=
  ⟨⟨rfl, rfl, rfl, rfl, rfl, by decide⟩,
   legacy_branch_isolation
     envStage3 ⟨[0, 1, 2, 3, 4, 5, 6], "trade-1"⟩ ⟨[9, 9]⟩ ⟨"trade-1", true, []⟩
       rfl rfl rfl rfl rfl
     envLegacyReject ⟨[0, 1, 2, 3, 4, 5, 6], "trade-1"⟩ ⟨[9, 9]⟩ ⟨"offline"⟩
       rfl rfl rfl rfl rfl rfl
     envVersionedOk ⟨[0, 1, 2, 3, 4, 5, 6], "trade-1"⟩ ⟨⟨⟨1, 0, 0⟩, [⟨[1]⟩]⟩, [none]⟩
       ⟨"trade-1", true, []⟩ rfl rfl (by decide) rfl⟩

/-! ## Claim C7 -/

/-- Reading back a compact-u16 written at the front of any tail yields
the written value and the untouched tail. -/
theorem decodeCompactU16_encode (n : Nat) (tail : List Nat) :
    decodeCompactU16 (encodeCompactU16 n ++ tail) = some (n, tail) := by
  induction n using Nat.strong_induction_on with
  | _ n ih =>
    by_cases h : n < 128
    · rw [encodeCompactU16]
      simp [h, decodeCompactU16]
    · rw [encodeCompactU16]
      have hrec := ih (n / 128) (Nat.div_lt_self (by omega) (by norm_num))
      simp only [dif_neg h, List.cons_append, decodeCompactU16,
        if_neg (by omega : ¬ (n % 128 + 128 < 128)), List.append_eq, hrec]
      simp only [Option.some.injEq, Prod.mk.injEq]
      exact ⟨by omega, trivial⟩

/-- Splitting the concatenation of `n` 64-byte signatures and a tail
recovers the signatures and the tail. -/
theorem takeSignatures_flatten (sigs : List (List Nat)) (msg : List Nat)
    (h : ∀ s ∈ sigs, s.length = 64) :
    takeSignatures sigs.length (sigs.flatten ++ msg) = some (sigs, msg) := by
  induction sigs with
  | nil => simp [takeSignatures]
  | cons s rest ih =>
    have hs : s.length = 64 := h s (by simp)
    have hlen : ¬ ((s ++ (rest.flatten ++ msg)).length < 64) := by
      simp [hs]
    rw [List.length_cons, List.flatten_cons, List.append_assoc]
    rw [takeSignatures]
    simp only [if_neg hlen]
    have hdrop : (s ++ (rest.flatten ++ msg)).drop 64 = rest.flatten ++ msg := by
      rw [← hs, List.drop_left]
    have htake : (s ++ (rest.flatten ++ msg)).take 64 = s := by
      rw [← hs, List.take_left]
    rw [hdrop, ih (fun t ht => h t (by simp [ht])), htake]

/-- Every signature produced by `takeSignatures` is 64 bytes long. -/
theorem takeSignatures_lengths :
    ∀ (n : Nat) (bs : List Nat) (sigs : List (List Nat)) (rest : List Nat),
      takeSignatures n bs = some (sigs, rest) → ∀ s ∈ sigs, s.length = 64 := by
  intro n
  induction n with
  | zero =>
    intro bs sigs rest h s hs
    rw [takeSignatures] at h
    cases h
    simp at hs
  | succ k ih =>
    intro bs sigs rest h s hs
    rw [takeSignatures] at h
    by_cases hlen : bs.length < 64
    · rw [if_pos hlen] at h
      cases h
    · rw [if_neg hlen] at h
      cases hrec : takeSignatures k (bs.drop 64) with
      | none => rw [hrec] at h; cases h
      | some p =>
        obtain ⟨sigs2, rest2⟩ := p
        rw [hrec] at h
        simp only [Option.some.injEq, Prod.mk.injEq] at h
        obtain ⟨hsig, hrest⟩ := h
        subst hsig
        rcases List.mem_cons.mp hs with hcase | hcase
        · subst hcase
          simp [List.length_take]
          omega
        · exact ih (bs.drop 64) sigs2 rest2 hrec s hcase

/-- Signatures of a successfully decoded wire transaction are 64 bytes. -/
theorem deserializeWire_sig_lengths (bs : List Nat) (u : WireTransaction)
    (h : deserializeWire bs = some u) : ∀ s ∈ u.signatures, s.length = 64 := by
  unfold deserializeWire at h
  split at h
  · split at h
    · rename_i htake
      injection h with h2
      subst h2
      exact takeSignatures_lengths _ _ _ _ htake
    · cases h
  · cases h

/-- Serializing a wire transaction whose signatures are all 64 bytes and
deserializing the output reproduces it. -/
theorem deserializeWire_serializeWire (t : WireTransaction)
    (h : ∀ s ∈ t.signatures, s.length = 64) :
    deserializeWire (serializeWire t) = some t := by
  unfold serializeWire deserializeWire
  rw [List.append_assoc]
  simp only [decodeCompactU16_encode,
    takeSignatures_flatten t.signatures t.messageBytes h]

/-- C7: the complete-transaction wire variant round-trips.  Any
transaction structure whose signatures are 64 bytes — in particular a
decoded-then-signed structure, since decoding yields 64-byte signatures
and signing writes 64-byte signatures — serializes to bytes that decode
back to an equal structure; consequently the codec is idempotent under
repeated decode/encode: re-encoding any successfully decoded structure
and decoding again is the identity on it. -/
theorem wire_roundtrip_idempotent (t : WireTransaction)
    (h : ∀ s ∈ t.signatures, s.length = 64) :
    deserializeWire (serializeWire t) = some t ∧
    ∀ (bs : List Nat) (u : WireTransaction), deserializeWire bs = some u →
      deserializeWire (serializeWire u) = some u := by
  refine ⟨deserializeWire_serializeWire t h, ?_⟩
  intro bs u hu
  exact deserializeWire_serializeWire u (deserializeWire_sig_lengths bs u hu)

theorem wire_roundtrip_idempotent_witness :
    (∀ s ∈ ([List.replicate 64 7] : List (List Nat)), s.length = 64) ∧
    (deserializeWire (serializeWire ⟨[List.replicate 64 7], [1, 2, 3]⟩) =
       some ⟨[List.replicate 64 7], [1, 2, 3]⟩ ∧
     ∀ (bs : List Nat) (u : WireTransaction), deserializeWire bs = some u →
       deserializeWire (serializeWire u) = some u) :=
  ⟨by simp, wire_roundtrip_idempotent ⟨[List.replicate 64 7], [1, 2, 3]⟩ (by simp)⟩

end GatewayWallet
